import Mathlib

/-!
Verification of the watchdog / process-supervisor module `ib_insync/ibcontroller.py`.

The module has three classes:
* `IBC` and `IBController` — process supervisors: `startAsync` spawns the external
  process (no-op when a process handle is already active), `terminateAsync` kills it
  (suppressing `ProcessLookupError` when the process is already gone).
* `Watchdog` — the orchestrator: `start`, `stop`, `_stop` (the stop sequence),
  `_scheduleRestart` (guarded by the `_isRestarting` flag; the `call_later` timer
  handle is not stored), `_onError` (error code 1100 → stop sequence) and
  `_watchAsync` (soft-timeout → one probe → re-arm or hard-timeout path).

The embedding below is a direct translation: each Python method becomes a pure
function on an explicit state, returning the successor state together with the list
of externally visible actions it performs, in program order.  Asynchronous inputs
(timer firings, disconnect/error notifications, probe outcomes) become an event
alphabet and a step function; reachability is the reflexive-transitive closure of
enabled steps from the freshly constructed state.
-/

namespace IbCtrl

/-! ### Process supervisors: `IBC` and `IBController` -/

/-- Errors that the modelled Python snippets can raise. -/
inductive PErr
  | processLookupError
  | attributeError
deriving DecidableEq, Repr

/-- A process handle (`self._proc`): `alive` is false once the OS process has
exited. -/
structure Proc where
  alive : Bool
deriving DecidableEq, Repr

/-- The mutable state shared by `IBC` and `IBController`: the `_proc` handle and
the `_monitor` task (modelled by its presence). -/
structure CtrlState where
  proc : Option Proc
  monitor : Option Unit
deriving DecidableEq, Repr

/-- Externally visible actions of the supervisor methods. -/
inductive PAction
  | spawn
  | startMonitor
  | cancelMonitor
  | sigTerminate
  | waitProc
deriving DecidableEq, Repr

/-- Python asyncio process handles raise `ProcessLookupError` from `terminate()` when
the process is already gone. -/
def Proc.pterminate (p : Proc) : Except PErr Unit :=
  if p.alive then Except.ok () else Except.error PErr.processLookupError

/-- Model of `with suppress(ProcessLookupError): ...` — swallow exactly that error. -/
def suppressPLE (x : Except PErr Unit) : Except PErr Unit :=
  match x with
  | Except.error PErr.processLookupError => Except.ok ()
  | other => other

/-- Model of `IBC.startAsync`: `if self._proc: return`, otherwise build the command, spawn
the process and start the monitor task. -/
def IBC.startAsync (s : CtrlState) : CtrlState × List PAction :=
  match s.proc with
  | some _ => (s, [])
  | none =>
      ({ proc := some { alive := true }, monitor := some () },
       [PAction.spawn, PAction.startMonitor])

/-- Model of `IBController.startAsync`: same guard and same effects (the command built is
different, which is outside the core). -/
def IBController.startAsync (s : CtrlState) : CtrlState × List PAction :=
  match s.proc with
  | some _ => (s, [])
  | none =>
      ({ proc := some { alive := true }, monitor := some () },
       [PAction.spawn, PAction.startMonitor])

/-- Model of `IBC.terminateAsync`: `if not self._proc: return`; `if self._monitor:` cancel
it; then terminate and wait under `suppress(ProcessLookupError)`; finally
`self._proc = None`. -/
def IBC.terminateAsync (s : CtrlState) : Except PErr (CtrlState × List PAction) :=
  match s.proc with
  | none => Except.ok (s, [])
  | some p =>
      let macts := if s.monitor.isSome then [PAction.cancelMonitor] else []
      match suppressPLE p.pterminate with
      | Except.ok () =>
          Except.ok ({ proc := none, monitor := none },
            macts ++ (if p.alive then [PAction.sigTerminate, PAction.waitProc]
                      else [PAction.sigTerminate]))
      | Except.error e => Except.error e

/-- Model of `IBController.terminateAsync`: as `IBC.terminateAsync`, but the source calls
`self._monitor.cancel()` without a `None` check — with `_proc` set and `_monitor`
absent this would be an `AttributeError`. -/
def IBController.terminateAsync (s : CtrlState) :
    Except PErr (CtrlState × List PAction) :=
  match s.proc with
  | none => Except.ok (s, [])
  | some p =>
      match s.monitor with
      | none => Except.error PErr.attributeError
      | some _ =>
          match suppressPLE p.pterminate with
          | Except.ok () =>
              Except.ok ({ proc := none, monitor := none },
                [PAction.cancelMonitor] ++
                  (if p.alive then [PAction.sigTerminate, PAction.waitProc]
                   else [PAction.sigTerminate]))
          | Except.error e => Except.error e

/-! ### Watchdog: construction -/

/-- The `IB` collaborator, as far as construction checks observe it. -/
structure IBModel where
  isConnected : Bool
deriving DecidableEq, Repr

/-- Constructor arguments of `Watchdog` that the construction checks inspect. -/
structure WatchdogCfg where
  controller : Option CtrlState
  ib : Option IBModel
  appTimeout : Rat
  retryDelay : Rat
deriving DecidableEq, Repr

/-- Construction-time failures of `Watchdog.__init__`: the two `ValueError`s for
missing collaborators, the `ValueError` for an already connected IB instance, and
the two `assert` statements. -/
inductive InitErr
  | noController
  | noIB
  | ibConnected
  | assertionError
deriving DecidableEq, Repr

/-- The mutable state of a `Watchdog`: the `_isRunning` and `_isRestarting`
flags, the number of `call_later` restart timers currently pending (the handle is
never stored by the source, so nothing can cancel one), and whether the `ib`
collaborator is currently connected. -/
structure WatchdogSt where
  isRunning : Bool
  isRestarting : Bool
  pendingTimers : Nat
  connected : Bool
deriving DecidableEq, Repr

/-- The state right after a successful `Watchdog.__init__`. -/
def Watchdog.mk0 : WatchdogSt :=
  { isRunning := false, isRestarting := false, pendingTimers := 0,
    connected := false }

/-- Model of `Watchdog.__init__`: check controller, check ib, check `ib.isConnected()`,
`assert 0 < appTimeout < 60`, `assert retryDelay > 0`; only then create the
watcher task and register the handlers. -/
def Watchdog.init (cfg : WatchdogCfg) : Except InitErr WatchdogSt :=
  match cfg.controller with
  | none => Except.error InitErr.noController
  | some _ =>
      match cfg.ib with
      | none => Except.error InitErr.noIB
      | some ib =>
          if ib.isConnected then Except.error InitErr.ibConnected
          else if ¬ (0 < cfg.appTimeout ∧ cfg.appTimeout < 60) then
            Except.error InitErr.assertionError
          else if ¬ (0 < cfg.retryDelay) then
            Except.error InitErr.assertionError
          else Except.ok Watchdog.mk0

/-! ### Watchdog: the state machine -/

/-- The six lifecycle events of the `Watchdog`. -/
inductive WEvent
  | starting
  | started
  | stopping
  | stopped
  | softTimeout
  | hardTimeout
deriving DecidableEq, Repr

/-- Externally visible actions of the `Watchdog` methods, in program order:
event emissions, controller start/terminate, connection connect/disconnect,
`ib.setTimeout` (arming the idle timer), arming a restart timer with
`loop.call_later`, issuing the probe request, and cancelling a task (present in
the alphabet because the spec demands it; the `Watchdog` source never performs
it). -/
inductive Action
  | emit (e : WEvent)
  | ctrlStart
  | ctrlTerminate
  | connect
  | disconnect
  | setTimeout
  | schedule
  | probeRequest
  | cancelTask
deriving DecidableEq, Repr

/-- Model of `Watchdog._scheduleRestart`: `if self._isRestarting: return`; else set the
flag and arm a `call_later(retryDelay, self.start)` timer whose handle is not
stored. -/
def Watchdog.scheduleRestart (s : WatchdogSt) : WatchdogSt × List Action :=
  if s.isRestarting then (s, [])
  else
    ({ s with isRestarting := true, pendingTimers := s.pendingTimers + 1 },
     [Action.schedule])

/-- Model of `Watchdog._stop`: emit `stoppingEvent`, `self._disconnect()`,
`self.controller.terminate()`, emit `stoppedEvent`, and
`if self._isRunning: self._scheduleRestart()`. -/
def Watchdog.stopSeq (s : WatchdogSt) : WatchdogSt × List Action :=
  let s1 : WatchdogSt := { s with connected := false }
  let acts : List Action :=
    [Action.emit WEvent.stopping, Action.disconnect, Action.ctrlTerminate,
     Action.emit WEvent.stopped]
  if s1.isRunning then
    let p := Watchdog.scheduleRestart s1
    (p.1, acts ++ p.2)
  else (s1, acts)

/-- Model of `Watchdog.stop`: `self._isRunning = False; self._stop()`. -/
def Watchdog.stop (s : WatchdogSt) : WatchdogSt × List Action :=
  Watchdog.stopSeq { s with isRunning := false }

/-- Model of `Watchdog.start`: set `_isRunning`, clear `_isRestarting`, emit
`startingEvent`, `controller.start()`, sleep `appStartupTime`, then try
`self._connect(); self.ib.setTimeout(appTimeout); startedEvent.emit` — on any
exception `controller.terminate(); self._scheduleRestart()`.  The parameter `ok`
is the outcome of the connect attempt. -/
def Watchdog.start (ok : Bool) (s : WatchdogSt) : WatchdogSt × List Action :=
  let s1 : WatchdogSt := { s with isRunning := true, isRestarting := false }
  if ok then
    ({ s1 with connected := true },
     [Action.emit WEvent.starting, Action.ctrlStart, Action.connect,
      Action.setTimeout, Action.emit WEvent.started])
  else
    let p := Watchdog.scheduleRestart s1
    (p.1,
     [Action.emit WEvent.starting, Action.ctrlStart, Action.ctrlTerminate]
       ++ p.2)

/-- Model of `Watchdog._onError(reqId, errorCode, errorString, contract)`:
`if errorCode == 1100: self._stop()`. -/
def Watchdog.onError (code : Int) (s : WatchdogSt) : WatchdogSt × List Action :=
  if code = 1100 then Watchdog.stopSeq s else (s, [])

/-- Outcome of one probe (`reqHistoricalDataAsync` under `wait_for(·, 4)`):
either the response arrived within the 4-second hard deadline carrying `bars`,
or the deadline elapsed. -/
inductive ProbeResult
  | inTime (bars : List Unit)
  | timeout
deriving DecidableEq, Repr

/-- One iteration of the `Watchdog._watchAsync` loop body after `timeoutEv`
fires: emit `softTimeoutEvent`, issue one probe request; a non-empty in-time
reply re-arms the idle timer via `setTimeout`; an empty reply (`if not bars:
raise`) or an elapsed deadline emits `hardTimeoutEvent` and runs `self._stop()`.
-/
def Watchdog.watchIter (r : ProbeResult) (s : WatchdogSt) :
    WatchdogSt × List Action :=
  let pre : List Action := [Action.emit WEvent.softTimeout, Action.probeRequest]
  match r with
  | ProbeResult.inTime bars =>
      if bars.isEmpty then
        let p := Watchdog.stopSeq s
        (p.1, pre ++ [Action.emit WEvent.hardTimeout] ++ p.2)
      else (s, pre ++ [Action.setTimeout])
  | ProbeResult.timeout =>
      let p := Watchdog.stopSeq s
      (p.1, pre ++ [Action.emit WEvent.hardTimeout] ++ p.2)

/-- The inputs that drive a constructed `Watchdog`: the public `start()` and
`stop()` calls, a pending restart timer firing (`call_later` invoking
`self.start`), the `disconnectedEvent` notification (handled by `self._stop`),
an `errorEvent` notification (handled by `self._onError`), and a soft timeout
with its probe outcome (one `_watchAsync` iteration).  The Boolean on
`extStart`/`timerFire` is the connect outcome of the resulting `start()` run. -/
inductive Ev
  | extStart (ok : Bool)
  | extStop
  | timerFire (ok : Bool)
  | disconnected
  | errorMsg (code : Int)
  | softTimeout (r : ProbeResult)

/-- The step function: which handler runs for each input.  A firing timer first
ceases to be pending, then invokes `start`. -/
def wstep (s : WatchdogSt) (e : Ev) : WatchdogSt × List Action :=
  match e with
  | Ev.extStart ok => Watchdog.start ok s
  | Ev.extStop => Watchdog.stop s
  | Ev.timerFire ok =>
      Watchdog.start ok { s with pendingTimers := s.pendingTimers - 1 }
  | Ev.disconnected => Watchdog.stopSeq s
  | Ev.errorMsg code => Watchdog.onError code s
  | Ev.softTimeout r => Watchdog.watchIter r s

/-- Which inputs the environment can deliver in a given state: a timer can only
fire while pending; the public `start()` is called from a stopped watchdog
(matching the state table); the notification events are delivered at the
environment's discretion — the `Watchdog` handlers impose no guard of their own.
-/
def enabled (s : WatchdogSt) : Ev → Bool
  | Ev.extStart _ => ! s.isRunning
  | Ev.timerFire _ => decide (0 < s.pendingTimers)
  | _ => true

/-- Reachability from the freshly constructed state, restricted to steps the
predicate `allow` admits (used to carve out executions that avoid a given
environment behaviour). -/
inductive ReachableFrom (allow : WatchdogSt → Ev → Bool) : WatchdogSt → Prop
  | init : ReachableFrom allow Watchdog.mk0
  | step {s : WatchdogSt} {e : Ev} : ReachableFrom allow s →
      enabled s e = true → allow s e = true → ReachableFrom allow (wstep s e).1

/-- Unrestricted reachability. -/
def Reachable (s : WatchdogSt) : Prop :=
  ReachableFrom (fun _ _ => true) s

/-- Executions in which `start()` is never invoked externally while a restart
timer is already pending. -/
def noStartWhilePending : WatchdogSt → Ev → Bool
  | s, Ev.extStart _ => decide (s.pendingTimers = 0)
  | _, _ => true

/-- Run a list of inputs from a state, keeping only the state. -/
def runEvs (s : WatchdogSt) (es : List Ev) : WatchdogSt :=
  es.foldl (fun t e => (wstep t e).1) s

/-! ### Characterization lemmas -/

/-- Closed form of the stop sequence: the four fixed steps in program order —
`stoppingEvent`, disconnect, `controller.terminate()`, `stoppedEvent` — followed
by a `call_later` arm exactly when the watchdog is running and no restart is
already scheduled. -/
theorem stopSeq_eq (s : WatchdogSt) :
    Watchdog.stopSeq s =
      ({ s with
         connected := false,
         isRestarting := s.isRestarting || s.isRunning,
         pendingTimers := s.pendingTimers +
           (if s.isRunning && ! s.isRestarting then 1 else 0) },
       [Action.emit WEvent.stopping, Action.disconnect, Action.ctrlTerminate,
        Action.emit WEvent.stopped] ++
         (if s.isRunning && ! s.isRestarting then [Action.schedule] else [])) := by
  rcases s with ⟨ir, irs, pt, c⟩
  cases ir <;> cases irs <;> rfl

/-- Closed form of `Watchdog.start`: on a successful connect the watchdog is
running and connected with the restart flag cleared; on a failed connect the
restart flag is set and one more restart timer is pending. -/
theorem start_eq (ok : Bool) (s : WatchdogSt) :
    Watchdog.start ok s =
      if ok then
        ({ s with
           isRunning := true,
           isRestarting := false,
           connected := true },
         [Action.emit WEvent.starting, Action.ctrlStart, Action.connect,
          Action.setTimeout, Action.emit WEvent.started])
      else
        ({ s with
           isRunning := true,
           isRestarting := true,
           pendingTimers := s.pendingTimers + 1 },
         [Action.emit WEvent.starting, Action.ctrlStart, Action.ctrlTerminate,
          Action.schedule]) := by
  cases ok <;> rfl

/-- The stop sequence never issues a probe request. -/
theorem stopSeq_no_probe (s : WatchdogSt) :
    (Watchdog.stopSeq s).2.count Action.probeRequest = 0 := by
  rcases s with ⟨ir, irs, pt, c⟩
  cases ir <;> cases irs <;> rfl

/-- The stop sequence emits `stoppingEvent` exactly once per run. -/
theorem stopSeq_one_stopping (s : WatchdogSt) :
    (Watchdog.stopSeq s).2.count (Action.emit WEvent.stopping) = 1 := by
  rcases s with ⟨ir, irs, pt, c⟩
  cases ir <;> cases irs <;> rfl

/-! ### The restart-guard invariant -/

/-- The restart-guard invariant: at most one restart timer is pending, and a
timer can only be pending while the `_isRestarting` flag is set. -/
def RInv (s : WatchdogSt) : Prop :=
  s.pendingTimers ≤ 1 ∧ (s.isRestarting = false → s.pendingTimers = 0)

theorem rinv_mk0 : RInv Watchdog.mk0 := by
  constructor <;> simp [Watchdog.mk0]

theorem rinv_stopSeq (s : WatchdogSt) (h : RInv s) :
    RInv (Watchdog.stopSeq s).1 := by
  rcases s with ⟨ir, irs, pt, c⟩
  rcases h with ⟨h1, h2⟩
  cases ir <;> cases irs
  · exact ⟨h1, h2⟩
  · exact ⟨h1, fun hh => Bool.noConfusion hh⟩
  · refine ⟨?_, fun hh => Bool.noConfusion hh⟩
    have hp : pt = 0 := h2 rfl
    show pt + 1 ≤ 1
    omega
  · exact ⟨h1, fun hh => Bool.noConfusion hh⟩

theorem rinv_start (ok : Bool) (s : WatchdogSt)
    (h : s.pendingTimers = 0) : RInv (Watchdog.start ok s).1 := by
  rw [start_eq]
  cases ok <;> simp [RInv, h]

theorem rinv_step (s : WatchdogSt) (e : Ev) (h : RInv s)
    (ha : noStartWhilePending s e = true) : RInv (wstep s e).1 := by
  cases e with
  | extStart ok =>
      have hp : s.pendingTimers = 0 := by
        simpa [noStartWhilePending] using ha
      exact rinv_start ok s hp
  | extStop =>
      exact rinv_stopSeq { s with isRunning := false } ⟨h.1, h.2⟩
  | timerFire ok =>
      have hp : s.pendingTimers - 1 = 0 := by
        have := h.1
        omega
      exact rinv_start ok { s with pendingTimers := s.pendingTimers - 1 } hp
  | disconnected => exact rinv_stopSeq s h
  | errorMsg code =>
      show RInv (Watchdog.onError code s).1
      unfold Watchdog.onError
      by_cases hc : code = 1100
      · simp only [hc, if_pos rfl]
        exact rinv_stopSeq s h
      · simp only [if_neg hc]
        exact h
  | softTimeout r =>
      show RInv (Watchdog.watchIter r s).1
      cases r with
      | inTime bars =>
          cases bars with
          | nil => exact rinv_stopSeq s h
          | cons b bs => exact h
      | timeout => exact rinv_stopSeq s h

theorem rinv_reachable (s : WatchdogSt)
    (h : ReachableFrom noStartWhilePending s) : RInv s := by
  induction h with
  | init => exact rinv_mk0
  | step hr he ha ih => exact rinv_step _ _ ih ha

/-- Characterization of successful `Watchdog` construction: it succeeds exactly
when a controller and an IB instance are supplied, the IB instance is not
connected, `0 < appTimeout < 60`, and `0 < retryDelay`. -/
theorem init_isOk_iff (cfg : WatchdogCfg) :
    (Watchdog.init cfg).isOk = true ↔
      (cfg.controller.isSome = true ∧
       (∃ i : IBModel, cfg.ib = some i ∧ i.isConnected = false) ∧
       0 < cfg.appTimeout ∧ cfg.appTimeout < 60 ∧ 0 < cfg.retryDelay) := by
  rcases cfg with ⟨co, oib, a, r⟩
  cases co <;> cases oib <;>
    simp only [Watchdog.init, Except.isOk, Except.toBool]
  · simp
  · simp
  · simp
  · rename_i c ib
    split_ifs <;> simp_all

/-! ### The claims -/

/-- C7: for a process handle whose process has already exited, or an absent
handle, `terminateAsync` completes without raising: the absent-handle case is a
no-op, the already-gone case is swallowed as success (for `IBController` the
monitor task is present whenever a process handle is, which the start path
guarantees), and `IBC.terminateAsync` never errors at all. -/
theorem terminate_already_gone_ok (s : CtrlState) :
    (s.proc = none →
      IBC.terminateAsync s = Except.ok (s, []) ∧
      IBController.terminateAsync s = Except.ok (s, [])) ∧
    (∀ p : Proc, s.proc = some p → p.alive = false →
      (IBC.terminateAsync s).isOk = true ∧
      (s.monitor.isSome = true →
        (IBController.terminateAsync s).isOk = true)) ∧
    (IBC.terminateAsync s).isOk = true := by
  rcases s with ⟨pr, mo⟩
  refine ⟨fun h => ?_, fun p hp ha => ?_, ?_⟩
  · cases pr with
    | none => exact ⟨rfl, rfl⟩
    | some q => exact Option.noConfusion h
  · cases pr with
    | none => exact Option.noConfusion hp
    | some q =>
        have hq : q = p := Option.some.inj hp
        have haq : q.alive = false := by rw [hq]; exact ha
        rcases q with ⟨al⟩
        have ha' : al = false := haq
        subst ha'
        cases mo with
        | none => exact ⟨rfl, fun hmo => Bool.noConfusion hmo⟩
        | some u => exact ⟨rfl, fun _ => rfl⟩
  · cases pr with
    | none => rfl
    | some q =>
        rcases q with ⟨al⟩
        cases al <;> cases mo <;> rfl

/-- Witness for C7: the no-op case at an absent handle, and the swallowed
`ProcessLookupError` case at an already-exited process with a live monitor. -/
theorem terminate_already_gone_ok_witness :
    (IBC.terminateAsync ⟨none, none⟩ = Except.ok (⟨none, none⟩, []) ∧
     IBController.terminateAsync ⟨none, none⟩ = Except.ok (⟨none, none⟩, [])) ∧
    ((IBC.terminateAsync ⟨some ⟨false⟩, some ()⟩).isOk = true ∧
     ((⟨some ⟨false⟩, some ()⟩ : CtrlState).monitor.isSome = true →
       (IBController.terminateAsync ⟨some ⟨false⟩, some ()⟩).isOk = true)) :=
  ⟨(terminate_already_gone_ok ⟨none, none⟩).1 rfl,
   (terminate_already_gone_ok ⟨some ⟨false⟩, some ()⟩).2.1 ⟨false⟩ rfl rfl⟩

/-- C8: `startAsync` is a no-op while a process handle is already active — the
state (handle and monitor) is unchanged and no action (in particular no spawn)
is performed, for both `IBC` and `IBController`. -/
theorem start_noop_when_active (s : CtrlState) (p : Proc)
    (h : s.proc = some p) :
    IBC.startAsync s = (s, []) ∧ IBController.startAsync s = (s, []) := by
  rcases s with ⟨pr, mo⟩
  cases pr with
  | none => exact Option.noConfusion h
  | some q => exact ⟨rfl, rfl⟩

/-- Witness for C8 at a state with an active process handle. -/
theorem start_noop_when_active_witness :
    IBC.startAsync ⟨some ⟨true⟩, some ()⟩ = (⟨some ⟨true⟩, some ()⟩, []) ∧
    IBController.startAsync ⟨some ⟨true⟩, some ()⟩ =
      (⟨some ⟨true⟩, some ()⟩, []) :=
  start_noop_when_active ⟨some ⟨true⟩, some ()⟩ ⟨true⟩ rfl

/-- C9: construction with a missing controller, a missing IB instance, an
`appTimeout` outside `(0, 60)` or a non-positive `retryDelay` fails with an
error: no `Watchdog` is created. -/
theorem watchdog_init_rejects_bad_config (cfg : WatchdogCfg)
    (h : cfg.controller = none ∨ cfg.ib = none ∨
      ¬ (0 < cfg.appTimeout ∧ cfg.appTimeout < 60) ∨
      ¬ (0 < cfg.retryDelay)) :
    (Watchdog.init cfg).isOk = false := by
  cases hok : (Watchdog.init cfg).isOk with
  | false => rfl
  | true =>
      exfalso
      rcases (init_isOk_iff cfg).mp hok with ⟨hco, ⟨i, hib, hic⟩, h1, h2, h3⟩
      rcases h with h | h | h | h
      · rw [h] at hco
        exact Bool.noConfusion hco
      · rw [h] at hib
        exact Option.noConfusion hib
      · exact h ⟨h1, h2⟩
      · exact h h3

/-- Witness for C9: a configuration with no controller is rejected. -/
theorem watchdog_init_rejects_bad_config_witness :
    ((⟨none, some ⟨false⟩, 20, 2⟩ : WatchdogCfg).controller = none ∨
      (⟨none, some ⟨false⟩, 20, 2⟩ : WatchdogCfg).ib = none ∨
      ¬ (0 < (⟨none, some ⟨false⟩, 20, 2⟩ : WatchdogCfg).appTimeout ∧
          (⟨none, some ⟨false⟩, 20, 2⟩ : WatchdogCfg).appTimeout < 60) ∨
      ¬ (0 < (⟨none, some ⟨false⟩, 20, 2⟩ : WatchdogCfg).retryDelay)) ∧
    (Watchdog.init (⟨none, some ⟨false⟩, 20, 2⟩ : WatchdogCfg)).isOk = false :=
  ⟨Or.inl rfl, watchdog_init_rejects_bad_config _ (Or.inl rfl)⟩

/-- C10: construction succeeds exactly when a controller and an IB instance are
supplied, the IB instance is not yet connected, `0 < appTimeout < 60` and
`0 < retryDelay`; in particular a connected IB instance is rejected, and
`appTimeout = 60` is rejected. -/
theorem watchdog_init_ok_characterization (cfg : WatchdogCfg) :
    ((Watchdog.init cfg).isOk = true ↔
      (cfg.controller.isSome = true ∧
       (∃ i : IBModel, cfg.ib = some i ∧ i.isConnected = false) ∧
       0 < cfg.appTimeout ∧ cfg.appTimeout < 60 ∧ 0 < cfg.retryDelay)) ∧
    (cfg.appTimeout = 60 → (Watchdog.init cfg).isOk = false) ∧
    (∀ i : IBModel, cfg.ib = some i → i.isConnected = true →
      (Watchdog.init cfg).isOk = false) := by
  refine ⟨init_isOk_iff cfg, fun h60 => ?_, fun i hib hic => ?_⟩
  · cases hok : (Watchdog.init cfg).isOk with
    | false => rfl
    | true =>
        exfalso
        rcases (init_isOk_iff cfg).mp hok with ⟨-, -, -, h2, -⟩
        rw [h60] at h2
        exact lt_irrefl _ h2
  · cases hok : (Watchdog.init cfg).isOk with
    | false => rfl
    | true =>
        exfalso
        rcases (init_isOk_iff cfg).mp hok with ⟨-, ⟨j, hib', hjc⟩, -⟩
        rw [hib] at hib'
        have hj : i = j := Option.some.inj hib'
        rw [← hj] at hjc
        rw [hic] at hjc
        exact Bool.noConfusion hjc

/-- C1 (amended): calling the external `stop()` while a restart timer is
pending runs the stop sequence, clears the running flag and schedules no
further restart — but it does not cancel the already-pending timer (the source
never stores the `call_later` handle): the timer stays pending, its firing
remains enabled, and when it fires `start()` runs again, emitting
`startingEvent` and leaving the watchdog running. -/
theorem watchdog_stop_keeps_pending_timer (s : WatchdogSt)
    (h : 0 < s.pendingTimers) :
    (Watchdog.stop s).1.pendingTimers = s.pendingTimers ∧
    (Watchdog.stop s).1.isRunning = false ∧
    Action.schedule ∉ (Watchdog.stop s).2 ∧
    enabled (Watchdog.stop s).1 (Ev.timerFire true) = true ∧
    Action.emit WEvent.starting ∈
      (wstep (Watchdog.stop s).1 (Ev.timerFire true)).2 ∧
    (wstep (Watchdog.stop s).1 (Ev.timerFire true)).1.isRunning = true := by
  rcases s with ⟨ir, irs, pt, c⟩
  refine ⟨rfl, rfl, ?_, ?_, ?_, rfl⟩
  · show Action.schedule ∉
      [Action.emit WEvent.stopping, Action.disconnect, Action.ctrlTerminate,
       Action.emit WEvent.stopped]
    decide
  · show decide (0 < pt) = true
    exact decide_eq_true h
  · show Action.emit WEvent.starting ∈
      [Action.emit WEvent.starting, Action.ctrlStart, Action.connect,
       Action.setTimeout, Action.emit WEvent.started]
    decide

/-- Witness for the C1 amendment at the state right after a failure scheduled a
restart. -/
theorem watchdog_stop_keeps_pending_timer_witness :
    (0 : Nat) < (⟨true, true, 1, false⟩ : WatchdogSt).pendingTimers ∧
    ((Watchdog.stop ⟨true, true, 1, false⟩).1.pendingTimers =
       (⟨true, true, 1, false⟩ : WatchdogSt).pendingTimers ∧
     (Watchdog.stop ⟨true, true, 1, false⟩).1.isRunning = false ∧
     Action.schedule ∉ (Watchdog.stop ⟨true, true, 1, false⟩).2 ∧
     enabled (Watchdog.stop ⟨true, true, 1, false⟩).1
       (Ev.timerFire true) = true ∧
     Action.emit WEvent.starting ∈
       (wstep (Watchdog.stop ⟨true, true, 1, false⟩).1
         (Ev.timerFire true)).2 ∧
     (wstep (Watchdog.stop ⟨true, true, 1, false⟩).1
       (Ev.timerFire true)).1.isRunning = true) :=
  ⟨by decide, watchdog_stop_keeps_pending_timer ⟨true, true, 1, false⟩ (by decide)⟩

/-- Counterexample to C1 as stated: from the fresh state, a successful start
followed by a disconnect leaves a pending restart timer; the external `stop()`
leaves that timer pending (it is not canceled), the timer can still fire, and
its firing emits `startingEvent` and puts the watchdog back into a running
state — so the watchdog does re-enter Starting after `stop()`. -/
theorem watchdog_stop_cancel_claim_cex :
    enabled Watchdog.mk0 (Ev.extStart true) = true ∧
    enabled (runEvs Watchdog.mk0 [Ev.extStart true]) Ev.disconnected = true ∧
    (runEvs Watchdog.mk0 [Ev.extStart true, Ev.disconnected]).isRestarting =
      true ∧
    (runEvs Watchdog.mk0 [Ev.extStart true, Ev.disconnected]).pendingTimers =
      1 ∧
    (Watchdog.stop
      (runEvs Watchdog.mk0 [Ev.extStart true, Ev.disconnected])).1.pendingTimers
      = 1 ∧
    enabled
      (Watchdog.stop
        (runEvs Watchdog.mk0 [Ev.extStart true, Ev.disconnected])).1
      (Ev.timerFire true) = true ∧
    Action.emit WEvent.starting ∈
      (wstep
        (Watchdog.stop
          (runEvs Watchdog.mk0 [Ev.extStart true, Ev.disconnected])).1
        (Ev.timerFire true)).2 ∧
    (wstep
      (Watchdog.stop
        (runEvs Watchdog.mk0 [Ev.extStart true, Ev.disconnected])).1
      (Ev.timerFire true)).1.isRunning = true := by
  decide

/-- C2 (amended): in every execution in which `start()` is not invoked
externally while a restart timer is already pending, at most one restart timer
is pending at any reachable state — the `_isRestarting` guard makes concurrent
failure triggers schedule exactly one restart. -/
theorem watchdog_at_most_one_pending_restart (s : WatchdogSt)
    (h : ReachableFrom noStartWhilePending s) :
    s.pendingTimers ≤ 1 :=
  (rinv_reachable s h).1

/-- Witness for the C2 amendment at the reachable state right after a
successful start and a disconnect. -/
theorem watchdog_at_most_one_pending_restart_witness :
    (wstep (wstep Watchdog.mk0 (Ev.extStart true)).1
      Ev.disconnected).1.pendingTimers ≤ 1 :=
  watchdog_at_most_one_pending_restart _
    (ReachableFrom.step
      (ReachableFrom.step ReachableFrom.init (by decide) (by decide))
      (by decide) (by decide))

/-- Counterexample to C2 as stated: a reachable state with two pending restart
timers exists.  After a failure schedules a restart, the external `stop()`
leaves the timer pending (see C1); the watchdog is then stopped, so the public
`start()` may be called again, and when its connect fails a second timer is
scheduled while the first is still pending. -/
theorem watchdog_two_pending_timers_cex :
    Reachable (runEvs Watchdog.mk0
      [Ev.extStart true, Ev.disconnected, Ev.extStop, Ev.extStart false]) ∧
    enabled (runEvs Watchdog.mk0 [Ev.extStart true, Ev.disconnected, Ev.extStop])
      (Ev.extStart false) = true ∧
    (runEvs Watchdog.mk0
      [Ev.extStart true, Ev.disconnected, Ev.extStop,
       Ev.extStart false]).pendingTimers = 2 := by
  refine ⟨?_, by decide, by decide⟩
  exact ReachableFrom.step
    (ReachableFrom.step
      (ReachableFrom.step
        (ReachableFrom.step ReachableFrom.init (by decide) (by decide))
        (by decide) (by decide))
      (by decide) (by decide))
    (by decide) (by decide)

/-- C3 (amended): when two trigger paths fire for the same underlying failure —
an error-1100 notification and then a disconnect notification — the stop
sequence runs once per trigger: `stoppingEvent` is emitted by each run (so
twice per failure transition, not at most once), while the restart guard lets
only the first run schedule a restart, leaving exactly one pending timer. -/
theorem watchdog_double_trigger_single_restart (s : WatchdogSt)
    (hrun : s.isRunning = true) (hg : s.isRestarting = false)
    (hp : s.pendingTimers = 0) :
    (wstep s (Ev.errorMsg 1100)).2.count (Action.emit WEvent.stopping) = 1 ∧
    (wstep (wstep s (Ev.errorMsg 1100)).1 Ev.disconnected).2.count
      (Action.emit WEvent.stopping) = 1 ∧
    (wstep s (Ev.errorMsg 1100)).2.count Action.schedule = 1 ∧
    (wstep (wstep s (Ev.errorMsg 1100)).1 Ev.disconnected).2.count
      Action.schedule = 0 ∧
    (wstep (wstep s (Ev.errorMsg 1100)).1 Ev.disconnected).1.pendingTimers =
      1 := by
  rcases s with ⟨ir, irs, pt, c⟩
  have h1 : ir = true := hrun
  have h2 : irs = false := hg
  have h3 : pt = 0 := hp
  subst h1
  subst h2
  subst h3
  cases c <;> decide

/-- Witness for the C3 amendment at a running state with no restart pending. -/
theorem watchdog_double_trigger_single_restart_witness :
    ((⟨true, false, 0, true⟩ : WatchdogSt).isRunning = true) ∧
    ((wstep ⟨true, false, 0, true⟩ (Ev.errorMsg 1100)).2.count
        (Action.emit WEvent.stopping) = 1 ∧
     (wstep (wstep ⟨true, false, 0, true⟩ (Ev.errorMsg 1100)).1
        Ev.disconnected).2.count (Action.emit WEvent.stopping) = 1 ∧
     (wstep ⟨true, false, 0, true⟩ (Ev.errorMsg 1100)).2.count
        Action.schedule = 1 ∧
     (wstep (wstep ⟨true, false, 0, true⟩ (Ev.errorMsg 1100)).1
        Ev.disconnected).2.count Action.schedule = 0 ∧
     (wstep (wstep ⟨true, false, 0, true⟩ (Ev.errorMsg 1100)).1
        Ev.disconnected).1.pendingTimers = 1) :=
  ⟨rfl,
   watchdog_double_trigger_single_restart ⟨true, false, 0, true⟩ rfl rfl rfl⟩

/-- Counterexample to C3 as stated: from the running state reached by a
successful start, delivering the error-1100 notification and then the
disconnect notification for the same underlying failure emits `stoppingEvent`
(and `stoppedEvent`) twice in total — the stop sequence is not deduplicated;
only the restart scheduling is (one `schedule`, one pending timer). -/
theorem watchdog_stop_sequence_twice_cex :
    ((wstep (runEvs Watchdog.mk0 [Ev.extStart true]) (Ev.errorMsg 1100)).2 ++
      (wstep (runEvs Watchdog.mk0 [Ev.extStart true, Ev.errorMsg 1100])
        Ev.disconnected).2).count (Action.emit WEvent.stopping) = 2 ∧
    ((wstep (runEvs Watchdog.mk0 [Ev.extStart true]) (Ev.errorMsg 1100)).2 ++
      (wstep (runEvs Watchdog.mk0 [Ev.extStart true, Ev.errorMsg 1100])
        Ev.disconnected).2).count (Action.emit WEvent.stopped) = 2 ∧
    ((wstep (runEvs Watchdog.mk0 [Ev.extStart true]) (Ev.errorMsg 1100)).2 ++
      (wstep (runEvs Watchdog.mk0 [Ev.extStart true, Ev.errorMsg 1100])
        Ev.disconnected).2).count Action.schedule = 1 ∧
    (runEvs Watchdog.mk0
      [Ev.extStart true, Ev.errorMsg 1100, Ev.disconnected]).pendingTimers =
      1 := by
  decide

/-- Helper for C4: the hard-timeout action list contains exactly one probe
request. -/
theorem watchIter_dead_count (s : WatchdogSt) :
    ([Action.emit WEvent.softTimeout, Action.probeRequest] ++
      ([Action.emit WEvent.hardTimeout] ++ (Watchdog.stopSeq s).2)).count
        Action.probeRequest = 1 := by
  rw [List.count_append, List.count_append, stopSeq_no_probe]
  decide

/-- C4: every soft-timeout iteration issues exactly one probe request; a
response arriving within the hard deadline with non-empty bars re-arms the idle
timer (`setTimeout`) and leaves the state unchanged — the watchdog stays
running with no stop and no restart; an elapsed deadline or empty bars emits
`hardTimeoutEvent` and runs the stop sequence. -/
theorem watchdog_probe_exactly_once (s : WatchdogSt) (r : ProbeResult)
    (bars : List Unit) :
    (Watchdog.watchIter r s).2.count Action.probeRequest = 1 ∧
    (bars ≠ [] →
      Watchdog.watchIter (ProbeResult.inTime bars) s =
        (s, [Action.emit WEvent.softTimeout, Action.probeRequest,
             Action.setTimeout])) ∧
    ((r = ProbeResult.timeout ∨ r = ProbeResult.inTime []) →
      Watchdog.watchIter r s =
        ((Watchdog.stopSeq s).1,
         [Action.emit WEvent.softTimeout, Action.probeRequest,
          Action.emit WEvent.hardTimeout] ++ (Watchdog.stopSeq s).2)) := by
  refine ⟨?_, ?_, ?_⟩
  · cases r with
    | inTime bs =>
        cases bs with
        | nil => exact watchIter_dead_count s
        | cons b bs' => rfl
    | timeout => exact watchIter_dead_count s
  · intro hb
    cases bars with
    | nil => exact absurd rfl hb
    | cons b bs' => rfl
  · intro hr
    rcases hr with hr | hr <;> subst hr <;> rfl

/-- Witness for C4: the alive path at a non-empty reply and the dead path at an
elapsed deadline, from a running state. -/
theorem watchdog_probe_exactly_once_witness :
    ([()] ≠ ([] : List Unit)) ∧
    Watchdog.watchIter (ProbeResult.inTime [()]) ⟨true, false, 0, true⟩ =
      ((⟨true, false, 0, true⟩ : WatchdogSt),
       [Action.emit WEvent.softTimeout, Action.probeRequest,
        Action.setTimeout]) ∧
    Watchdog.watchIter ProbeResult.timeout ⟨true, false, 0, true⟩ =
      ((Watchdog.stopSeq ⟨true, false, 0, true⟩).1,
       [Action.emit WEvent.softTimeout, Action.probeRequest,
        Action.emit WEvent.hardTimeout] ++
         (Watchdog.stopSeq ⟨true, false, 0, true⟩).2) :=
  ⟨by decide,
   (watchdog_probe_exactly_once ⟨true, false, 0, true⟩ ProbeResult.timeout
     [()]).2.1 (by decide),
   (watchdog_probe_exactly_once ⟨true, false, 0, true⟩ ProbeResult.timeout
     [()]).2.2 (Or.inl rfl)⟩

/-- C5: receiving error code 1100 runs the stop sequence directly — the emitted
actions begin with `stoppingEvent` and contain no soft-timeout, no hard-timeout
and no probe request; every other error code leaves the state untouched and
performs nothing. -/
theorem watchdog_fatal_error_code (s : WatchdogSt) (code : Int) :
    (code = 1100 →
      Watchdog.onError code s = Watchdog.stopSeq s ∧
      (Watchdog.onError code s).2.head? = some (Action.emit WEvent.stopping) ∧
      Action.emit WEvent.softTimeout ∉ (Watchdog.onError code s).2 ∧
      Action.emit WEvent.hardTimeout ∉ (Watchdog.onError code s).2 ∧
      Action.probeRequest ∉ (Watchdog.onError code s).2) ∧
    (code ≠ 1100 → Watchdog.onError code s = (s, [])) := by
  constructor
  · intro hc
    subst hc
    have he : Watchdog.onError 1100 s = Watchdog.stopSeq s := by
      unfold Watchdog.onError
      simp
    refine ⟨he, ?_, ?_, ?_, ?_⟩
    · rw [he, stopSeq_eq]
      rfl
    · rw [he, stopSeq_eq]
      by_cases hg : (s.isRunning && ! s.isRestarting) = true
      · simp only [if_pos hg]
        decide
      · simp only [if_neg hg]
        decide
    · rw [he, stopSeq_eq]
      by_cases hg : (s.isRunning && ! s.isRestarting) = true
      · simp only [if_pos hg]
        decide
      · simp only [if_neg hg]
        decide
    · rw [he, stopSeq_eq]
      by_cases hg : (s.isRunning && ! s.isRestarting) = true
      · simp only [if_pos hg]
        decide
      · simp only [if_neg hg]
        decide
  · intro hc
    unfold Watchdog.onError
    rw [if_neg hc]

/-- Witness for C5: code 1100 at a running state, and the benign code 2110. -/
theorem watchdog_fatal_error_code_witness :
    (Watchdog.onError 1100 ⟨true, false, 0, true⟩ =
       Watchdog.stopSeq ⟨true, false, 0, true⟩ ∧
     (Watchdog.onError 1100 ⟨true, false, 0, true⟩).2.head? =
       some (Action.emit WEvent.stopping) ∧
     Action.emit WEvent.softTimeout ∉
       (Watchdog.onError 1100 ⟨true, false, 0, true⟩).2 ∧
     Action.emit WEvent.hardTimeout ∉
       (Watchdog.onError 1100 ⟨true, false, 0, true⟩).2 ∧
     Action.probeRequest ∉
       (Watchdog.onError 1100 ⟨true, false, 0, true⟩).2) ∧
    Watchdog.onError 2110 ⟨true, false, 0, true⟩ =
      ((⟨true, false, 0, true⟩ : WatchdogSt), []) :=
  ⟨(watchdog_fatal_error_code ⟨true, false, 0, true⟩ 1100).1 rfl,
   (watchdog_fatal_error_code ⟨true, false, 0, true⟩ 2110).2 (by decide)⟩

/-- C6 (amended): every run of the stop sequence performs, in order,
`stoppingEvent`, disconnect, `controller.terminate()`, `stoppedEvent`, and then
at most a restart arm — the disconnect always precedes the terminate, but no
cancellation of the liveness wait or of a pending probe is performed anywhere
in the sequence. -/
theorem watchdog_stop_sequence_order (s : WatchdogSt) :
    (Watchdog.stopSeq s).2 =
      [Action.emit WEvent.stopping, Action.disconnect, Action.ctrlTerminate,
       Action.emit WEvent.stopped] ++
        (if s.isRunning && ! s.isRestarting then [Action.schedule] else []) ∧
    List.indexOf Action.disconnect (Watchdog.stopSeq s).2 <
      List.indexOf Action.ctrlTerminate (Watchdog.stopSeq s).2 ∧
    Action.cancelTask ∉ (Watchdog.stopSeq s).2 := by
  refine ⟨?_, ?_, ?_⟩
  · rw [stopSeq_eq]
  · rw [stopSeq_eq]
    dsimp only
    by_cases hg : (s.isRunning && ! s.isRestarting) = true
    · simp only [if_pos hg]
      decide
    · simp only [if_neg hg]
      decide
  · rw [stopSeq_eq]
    dsimp only
    by_cases hg : (s.isRunning && ! s.isRestarting) = true
    · simp only [if_pos hg]
      decide
    · simp only [if_neg hg]
      decide

/-- Counterexample to C6 as stated: at the running state reached by a
successful start, the stop sequence's action list is exactly the five actions
shown — it contains no cancellation at all, so the liveness wait and a pending
probe are not canceled before the disconnect and the terminate. -/
theorem watchdog_stop_sequence_no_cancel_cex :
    (Watchdog.stopSeq (runEvs Watchdog.mk0 [Ev.extStart true])).2 =
      [Action.emit WEvent.stopping, Action.disconnect, Action.ctrlTerminate,
       Action.emit WEvent.stopped, Action.schedule] ∧
    Action.cancelTask ∉
      (Watchdog.stopSeq (runEvs Watchdog.mk0 [Ev.extStart true])).2 := by
  decide

/-- Witness for C10: `appTimeout = 60` is rejected, and an already connected IB
instance is rejected. -/
theorem watchdog_init_ok_characterization_witness :
    (Watchdog.init
      (⟨some ⟨none, none⟩, some ⟨false⟩, 60, 2⟩ : WatchdogCfg)).isOk = false ∧
    (Watchdog.init
      (⟨some ⟨none, none⟩, some ⟨true⟩, 20, 2⟩ : WatchdogCfg)).isOk = false :=
  ⟨(watchdog_init_ok_characterization _).2.1 rfl,
   (watchdog_init_ok_characterization _).2.2 ⟨true⟩ rfl rfl⟩

end IbCtrl
